import Mathlib

/-!
Shallow embedding of `src/krotov/convergence.py`: the convergence-check
constructors `Or`, `value_below`, `delta_below`, `check_monotonic_error` and
`dump_result`, with theorems about their behavior.

Modelling conventions:
* A Python `Result` object is `ResultRecord`: its `info_vals` list (each
  entry a numeric value or Python `None`, hence `Option ℚ`), its `iters`
  list, and its `dump` method (the persistence capability; an I/O failure is
  an error message).
* A glom extraction spec is `Spec`: the extraction function paired with the
  string rendering `str(spec)` that the constructors use for default names.
  Extraction either succeeds with a value (possibly Python `None`) or raises
  one of `AttributeError, KeyError, IndexError, glom.GlomError` — exactly the
  exception kinds `delta_below` catches.
* A `limit` argument (Python float-or-str) is `Limit`: `val` models
  `float(limit)` and `repr` models `str(limit)` as interpolated into the
  returned messages.
* Effects: a predicate call that may raise a Python exception returns
  `Except PyExc _`; the closure built by `dump_result` additionally returns
  the list of paths passed to the dump capability, so the number of
  persistence invocations is observable.
-/

namespace Krotov

/-- Exception kinds caught by the two `except` clauses of `delta_below`:
`AttributeError, KeyError, IndexError, glom.GlomError`. -/
inductive ExtractionError where
  | attributeError (msg : String)
  | keyError (msg : String)
  | indexError (msg : String)
  | glomError (msg : String)
deriving DecidableEq, Repr

/-- Exceptions a convergence-check call can raise: a propagated extraction
failure, or a `TypeError` from arithmetic or comparison on Python `None`. -/
inductive PyExc where
  | extractionExc (e : ExtractionError)
  | typeError
deriving DecidableEq, Repr

/-- The `Result` object, restricted to the interface used by this module:
`info_vals` (entries possibly Python `None`), `iters`, and the `dump` method
(which raises an `IOError` message on failure). -/
structure ResultRecord where
  info_vals : List (Option ℚ)
  iters : List Int
  dump : String → Except String Unit

/-- A glom specification: how to extract a value from a `ResultRecord`, plus
its `str()` rendering (used for default `name`s). -/
structure Spec where
  extract : ResultRecord → Except ExtractionError (Option ℚ)
  repr : String

/-- A `limit` argument (a float or its string representation): `val` is
`float(limit)` and `repr` is how `"%s" % limit` renders it. -/
structure Limit where
  repr : String
  val : ℚ

/-- Python list indexing `xs[i]` with negative-index support; `none` models
an `IndexError`. -/
def pyIndex {α : Type} (xs : List α) (i : Int) : Option α :=
  let n : Int := xs.length
  let j : Int := if i < 0 then n + i else i
  if 0 ≤ j ∧ j < n then xs.get? j.toNat else Option.none

/-- The default spec `('info_vals', glom.T[-1])`: the last info value. -/
def info_last : Spec where
  extract := fun r =>
    match pyIndex r.info_vals (-1) with
    | some v => Except.ok v
    | Option.none =>
      Except.error (ExtractionError.glomError "PathAccessError: info_vals, T[-1]")
  repr := "(info_vals, T[-1])"

/-- The default spec `('info_vals', glom.T[-2])`: the second-to-last info
value. -/
def info_secondlast : Spec where
  extract := fun r =>
    match pyIndex r.info_vals (-2) with
    | some v => Except.ok v
    | Option.none =>
      Except.error (ExtractionError.glomError "PathAccessError: info_vals, T[-2]")
  repr := "(info_vals, T[-2])"

/-- Boolean xor, as `operator.xor` applied to the two `is None` tests. -/
def xor (a b : Bool) : Bool := Bool.xor a b

/-- Embedding of `value_below(limit, spec, name)`: the returned
`check_convergence` closure.  Extraction failures propagate uncaught; a
comparison of Python `None` with a float raises `TypeError`. -/
def value_below (limit : Limit) (spec : Spec) (name : Option String) :
    ResultRecord → Except PyExc (Option String) :=
  let nm := name.getD spec.repr
  fun result =>
    match spec.extract result with
    | Except.error e => Except.error (PyExc.extractionExc e)
    | Except.ok Option.none => Except.error PyExc.typeError
    | Except.ok (some v) =>
      if v < limit.val then Except.ok (some (nm ++ " < " ++ limit.repr))
      else Except.ok Option.none

/-- Embedding of `delta_below(limit, spec1, spec0, absolute_value, name)`:
the returned `check_convergence` closure.  Each extraction is attempted
separately; a caught failure leaves the value `None` and records the
exception in `delayed_exc` (the second `except` clause overwrites the
first).  If exactly one of `v1`, `v0` `is None`, the check passes with
`None`; otherwise a recorded exception is re-raised; otherwise
`delta = v1 - v0` (a `TypeError` when both are Python `None`), optionally
replaced by its absolute value, is compared against `float(limit)`. -/
def delta_below (limit : Limit) (spec1 spec0 : Spec) (absolute_value : Bool)
    (name : Option String) : ResultRecord → Except PyExc (Option String) :=
  let nm := name.getD ("Δ(" ++ spec1.repr ++ "," ++ spec0.repr ++ ")")
  fun result =>
    let r1 := spec1.extract result
    let r0 := spec0.extract result
    let v1 : Option ℚ := match r1 with
      | Except.ok v => v
      | Except.error _ => Option.none
    let d1 : Option ExtractionError := match r1 with
      | Except.ok _ => Option.none
      | Except.error e => some e
    let v0 : Option ℚ := match r0 with
      | Except.ok v => v
      | Except.error _ => Option.none
    let d0 : Option ExtractionError := match r0 with
      | Except.ok _ => Option.none
      | Except.error e => some e
    let delayed_exc : Option ExtractionError := match d0 with
      | some e => some e
      | Option.none => d1
    if xor v1.isNone v0.isNone then
      Except.ok Option.none
    else
      match delayed_exc with
      | some exc => Except.error (PyExc.extractionExc exc)
      | Option.none =>
        match v1, v0 with
        | some a, some b =>
          let delta := a - b
          let delta2 := if absolute_value then |delta| else delta
          if delta2 < limit.val then Except.ok (some (nm ++ " < " ++ limit.repr))
          else Except.ok Option.none
        | _, _ => Except.error PyExc.typeError

/-- The Python int `0` used as the `limit` of the monotonicity checks:
`float(0) = 0.0`, `str(0) = "0"`. -/
def limit_zero : Limit where
  repr := "0"
  val := 0

/-- Embedding of the module-level `_monotonic_convergence` closure:
`delta_below` pre-bound with limit `0`, `spec1` the second-to-last info
value, `spec0` the last, `absolute_value=False`. -/
def _monotonic_convergence : ResultRecord → Except PyExc (Option String) :=
  delta_below limit_zero info_secondlast info_last false
    (some "Loss of monotonic convergence; error decrease")

/-- Embedding of the module-level `_monotonic_fidelity` closure. -/
def _monotonic_fidelity : ResultRecord → Except PyExc (Option String) :=
  delta_below limit_zero info_last info_secondlast false
    (some "Loss of monotonic convergence; fidelity increase")

/-- Embedding of `check_monotonic_error`: a wrapper around
`_monotonic_convergence`. -/
def check_monotonic_error (result : ResultRecord) :
    Except PyExc (Option String) :=
  _monotonic_convergence result

/-- Embedding of `check_monotonic_fidelity`: a wrapper around
`_monotonic_fidelity`. -/
def check_monotonic_fidelity (result : ResultRecord) :
    Except PyExc (Option String) :=
  _monotonic_fidelity result

/-- Python truthiness `bool(msg) is True` for an optional message: `None`
and the empty string are falsy. -/
def truthy (msg : Option String) : Bool :=
  match msg with
  | some s => !(s == "")
  | Option.none => false

/-- The `for func in funcs` loop inside the closure returned by `Or`:
return the first truthy result, `None` if the list is exhausted.  An
exception raised by a called function propagates. -/
def Or_loop (funcs : List (ResultRecord → Except PyExc (Option String)))
    (result : ResultRecord) : Except PyExc (Option String) :=
  match funcs with
  | [] => Except.ok Option.none
  | f :: fs =>
    match f result with
    | Except.error e => Except.error e
    | Except.ok msg => if truthy msg then Except.ok msg else Or_loop fs result

/-- Embedding of `Or(*funcs)`: the returned `check_convergence` closure. -/
def Or (funcs : List (ResultRecord → Except PyExc (Option String))) :
    ResultRecord → Except PyExc (Option String) :=
  fun result => Or_loop funcs result

/-- One piece of a `str.format` template: a literal, or the `iter`
substitution field with a `0`-padded minimum width (width `0` for a plain
`\x7biter\x7d` field). -/
inductive TemplatePart where
  | lit (s : String)
  | field (width : Nat)
deriving DecidableEq, Repr

/-- Python `format(i, '0Nd')`: decimal rendering left-padded with zeros to
the given width (the sign counting toward the width). -/
def zeroPad (width : Nat) (i : Int) : String :=
  let sign := if i < 0 then "-" else ""
  let digits := toString i.natAbs
  let pad := String.mk (List.replicate (width - (digits.length + sign.length)) '0')
  sign ++ pad ++ digits

/-- Python `filename.format(iter=iteration)` on the parsed template. -/
def formatTemplate (tpl : List TemplatePart) (iteration : Int) : String :=
  match tpl with
  | [] => ""
  | TemplatePart.lit s :: rest => s ++ formatTemplate rest iteration
  | TemplatePart.field w :: rest =>
    zeroPad w iteration ++ formatTemplate rest iteration

/-- The `_dump_result` closure returned by `dump_result`, instrumented: the
second component lists the paths passed to `result.dump`, making the number
of persistence invocations observable.  `result.iters[-1]` raises
`IndexError` on an empty list; an `IOError` from `result.dump` is converted
into a message naming the path. -/
def dump_check (filename : List TemplatePart) (every : Int)
    (result : ResultRecord) : Except PyExc (Option String) × List String :=
  match pyIndex result.iters (-1) with
  | Option.none =>
    (Except.error (PyExc.extractionExc
        (ExtractionError.indexError "list index out of range")), [])
  | some iteration =>
    if iteration % every = 0 then
      let outfile := formatTemplate filename iteration
      match result.dump outfile with
      | Except.ok _ => (Except.ok Option.none, [outfile])
      | Except.error exc_info =>
        (Except.ok (some ("Could not store " ++ outfile ++ ": " ++ exc_info)),
         [outfile])
    else (Except.ok Option.none, [])

/-- Embedding of `dump_result(filename, every)`: validates `every` at
construction time (`ValueError "every must be > 0"` when `every <= 0`),
otherwise returns the `_dump_result` closure. -/
def dump_result (filename : List TemplatePart) (every : Int) :
    Except String (ResultRecord → Except PyExc (Option String) × List String) :=
  if every ≤ 0 then Except.error "every must be > 0"
  else Except.ok (dump_check filename every)

/-- A dump capability that always succeeds. -/
def dumpOk : String → Except String Unit := fun _ => Except.ok ()

/-- The limit argument `'1e-4'`: parsed value `1/10000`, rendered verbatim. -/
def limit_1e4 : Limit where
  repr := "1e-4"
  val := 1/10000

/-- A record with no info values. -/
def recEmpty : ResultRecord := ⟨[], [1], dumpOk⟩

/-- A record whose single info value is Python `None`. -/
def recOneNone : ResultRecord := ⟨[Option.none], [1], dumpOk⟩

/-- A record with one numeric info value. -/
def recOne : ResultRecord := ⟨[some (9/10)], [1], dumpOk⟩

/-- A record with info values `[9e-1, 1e-1]`. -/
def recTwo : ResultRecord := ⟨[some (9/10), some (1/10)], [1, 2], dumpOk⟩

/-- A record with info values `[9e-1, 1e-1, 2e-1]`. -/
def recThree : ResultRecord :=
  ⟨[some (9/10), some (1/10), some (2/10)], [1, 2, 3], dumpOk⟩

/-- A record whose last info value equals `1e-4`. -/
def recEq : ResultRecord := ⟨[some (1/10000)], [1], dumpOk⟩

/-- A record whose last info value is `9e-5`. -/
def recBelow : ResultRecord := ⟨[some (9/100000)], [1, 2], dumpOk⟩

/-- A record with info values `[1e-5, 2e-5]`. -/
def recSmall : ResultRecord :=
  ⟨[some (1/100000), some (2/100000)], [1, 2], dumpOk⟩

/-- A record whose last info value is Python `None` after a numeric one. -/
def recNoneLast : ResultRecord := ⟨[some 1, Option.none], [1, 2], dumpOk⟩

/-- A record at current iteration 3 (not a multiple of 10). -/
def recIter3 : ResultRecord := ⟨[], [1, 2, 3], dumpOk⟩

/-- A record at current iteration 10 whose dump always succeeds. -/
def recIter10 : ResultRecord := ⟨[], [10], dumpOk⟩

/-- A record at current iteration 10 whose dump always fails. -/
def recIter10bad : ResultRecord := ⟨[], [10], fun _ => Except.error "disk full"⟩

/-- A record at current iteration 200. -/
def recIter200 : ResultRecord := ⟨[], [100, 200], dumpOk⟩

/-- The parsed filename template `r_\x7biter:06d\x7d.dump`. -/
def tpl_r6 : List TemplatePart :=
  [TemplatePart.lit "r_", TemplatePart.field 6, TemplatePart.lit ".dump"]

/-- A convergence check that always passes. -/
def p_none : ResultRecord → Except PyExc (Option String) :=
  fun _ => Except.ok Option.none

/-- A convergence check that always signals convergence. -/
def p_stop : ResultRecord → Except PyExc (Option String) :=
  fun _ => Except.ok (some "converged")

/-- A convergence check after the signalling one, used to observe that the
combined check's result does not depend on it. -/
def p_later : ResultRecord → Except PyExc (Option String) :=
  fun _ => Except.ok (some "later")

/-- Helper: `delta_below` when `spec1` raises a caught exception and `spec0`
succeeds with a non-`None` value. -/
theorem delta_below_err_ok (limit : Limit) (s1 s0 : Spec) (av : Bool)
    (nm : Option String) (r : ResultRecord) (e : ExtractionError) (q : ℚ)
    (h1 : s1.extract r = Except.error e)
    (h0 : s0.extract r = Except.ok (some q)) :
    delta_below limit s1 s0 av nm r = Except.ok Option.none := by
  simp [delta_below, h1, h0, xor]

/-- Helper: `delta_below` when `spec1` succeeds with a non-`None` value and
`spec0` raises a caught exception. -/
theorem delta_below_ok_err (limit : Limit) (s1 s0 : Spec) (av : Bool)
    (nm : Option String) (r : ResultRecord) (e : ExtractionError) (q : ℚ)
    (h1 : s1.extract r = Except.ok (some q))
    (h0 : s0.extract r = Except.error e) :
    delta_below limit s1 s0 av nm r = Except.ok Option.none := by
  simp [delta_below, h1, h0, xor]

/-- Helper: `delta_below` when both extractions raise: the exception captured
second (from `spec0`) is re-raised. -/
theorem delta_below_err_err (limit : Limit) (s1 s0 : Spec) (av : Bool)
    (nm : Option String) (r : ResultRecord) (e1 e0 : ExtractionError)
    (h1 : s1.extract r = Except.error e1)
    (h0 : s0.extract r = Except.error e0) :
    delta_below limit s1 s0 av nm r =
      Except.error (PyExc.extractionExc e0) := by
  simp [delta_below, h1, h0, xor]

/-- Helper: `delta_below` when both extractions succeed with numeric values:
the comparison of the (optionally absolute) difference with `float(limit)`
decides the outcome. -/
theorem delta_below_both_ok (limit : Limit) (s1 s0 : Spec) (av : Bool)
    (nm : String) (r : ResultRecord) (q1 q0 : ℚ)
    (h1 : s1.extract r = Except.ok (some q1))
    (h0 : s0.extract r = Except.ok (some q0)) :
    delta_below limit s1 s0 av (some nm) r =
      (if (if av then |q1 - q0| else q1 - q0) < limit.val then
        Except.ok (some (nm ++ " < " ++ limit.repr))
      else Except.ok Option.none) := by
  simp [delta_below, h1, h0, xor]

/-- Helper: `delta_below` when `spec1` succeeds with Python `None` and
`spec0` succeeds with a non-`None` value. -/
theorem delta_below_oknone_ok (limit : Limit) (s1 s0 : Spec) (av : Bool)
    (nm : Option String) (r : ResultRecord) (q : ℚ)
    (h1 : s1.extract r = Except.ok Option.none)
    (h0 : s0.extract r = Except.ok (some q)) :
    delta_below limit s1 s0 av nm r = Except.ok Option.none := by
  simp [delta_below, h1, h0, xor]

/-- Helper: `delta_below` when `spec1` succeeds with a non-`None` value and
`spec0` succeeds with Python `None`. -/
theorem delta_below_ok_oknone (limit : Limit) (s1 s0 : Spec) (av : Bool)
    (nm : Option String) (r : ResultRecord) (q : ℚ)
    (h1 : s1.extract r = Except.ok (some q))
    (h0 : s0.extract r = Except.ok Option.none) :
    delta_below limit s1 s0 av nm r = Except.ok Option.none := by
  simp [delta_below, h1, h0, xor]

/-- Helper: the `Or` loop returns `None` when every function in the list
returns a falsy message. -/
theorem Or_loop_all_falsy (r : ResultRecord) :
    ∀ fs, (∀ g ∈ fs, ∃ m, g r = Except.ok m ∧ truthy m = false) →
      Or_loop fs r = Except.ok Option.none := by
  intro fs
  induction fs with
  | nil => intro _; rfl
  | cons f fs ih =>
    intro h
    obtain ⟨m, hm, hf⟩ := h f (by simp)
    have hrest := ih (fun g hg => h g (by simp [hg]))
    simp [Or_loop, hm, hf, hrest]

/-- Helper: the `Or` loop returns the first truthy result, independently of
the functions after it. -/
theorem Or_loop_append (r : ResultRecord) :
    ∀ fs1 (f : ResultRecord → Except PyExc (Option String)) fs2 msg,
      (∀ g ∈ fs1, ∃ m, g r = Except.ok m ∧ truthy m = false) →
      f r = Except.ok msg → truthy msg = true →
      Or_loop (fs1 ++ f :: fs2) r = Except.ok msg := by
  intro fs1
  induction fs1 with
  | nil =>
    intro f fs2 msg _ hf ht
    simp [Or_loop, hf, ht]
  | cons g fs1 ih =>
    intro f fs2 msg h hf ht
    obtain ⟨m, hm, hgf⟩ := h g (by simp)
    have hrest := ih f fs2 msg (fun g2 hg2 => h g2 (by simp [hg2])) hf ht
    simp [Or_loop, hm, hgf]
    simpa using hrest

/-- C1 (amended): if exactly one of the two extractions performed by the
predicate constructed by `delta_below` fails while the other succeeds with a
non-`None` value, the predicate returns `None` (continue), swallowing the
one-sided extraction failure. -/
theorem claim1_theorem (limit : Limit) (s1 s0 : Spec) (av : Bool)
    (nm : Option String) (r : ResultRecord) :
    (∀ e q, s1.extract r = Except.error e →
      s0.extract r = Except.ok (some q) →
      delta_below limit s1 s0 av nm r = Except.ok Option.none) ∧
    (∀ e q, s1.extract r = Except.ok (some q) →
      s0.extract r = Except.error e →
      delta_below limit s1 s0 av nm r = Except.ok Option.none) :=
  ⟨fun e q h1 h0 => delta_below_err_ok limit s1 s0 av nm r e q h1 h0,
   fun e q h1 h0 => delta_below_ok_err limit s1 s0 av nm r e q h1 h0⟩

/-- C1 counterexample: on a record whose single info value is Python `None`,
exactly one of the two default extractions fails (`T[-2]` fails, `T[-1]`
succeeds), yet the predicate re-raises the captured failure instead of
returning `None`. -/
theorem claim1_counterexample :
    info_secondlast.extract recOneNone =
      Except.error (ExtractionError.glomError "PathAccessError: info_vals, T[-2]") ∧
    info_last.extract recOneNone = Except.ok Option.none ∧
    delta_below limit_1e4 info_last info_secondlast true Option.none recOneNone =
      Except.error (PyExc.extractionExc
        (ExtractionError.glomError "PathAccessError: info_vals, T[-2]")) :=
  ⟨rfl, rfl, rfl⟩

/-- C1 witness: on a record with exactly one numeric info value, the default
`delta_below` predicate returns `None`. -/
theorem claim1_witness :
    delta_below limit_1e4 info_last info_secondlast true Option.none recOne =
      Except.ok Option.none :=
  (claim1_theorem limit_1e4 info_last info_secondlast true Option.none recOne).2
    (ExtractionError.glomError "PathAccessError: info_vals, T[-2]") (9/10) rfl rfl

/-- C2: when both extractions performed by the predicate constructed by
`delta_below` fail, the predicate re-raises the captured extraction failure
(the one recorded last, from `spec0`) instead of returning `None`. -/
theorem claim2_theorem (limit : Limit) (s1 s0 : Spec) (av : Bool)
    (nm : Option String) (r : ResultRecord) (e1 e0 : ExtractionError)
    (h1 : s1.extract r = Except.error e1)
    (h0 : s0.extract r = Except.error e0) :
    delta_below limit s1 s0 av nm r =
      Except.error (PyExc.extractionExc e0) :=
  delta_below_err_err limit s1 s0 av nm r e1 e0 h1 h0

/-- C2 witness: on a record with zero info values, both default extractions
fail and the predicate re-raises the extraction failure. -/
theorem claim2_witness :
    delta_below limit_1e4 info_last info_secondlast true Option.none recEmpty =
      Except.error (PyExc.extractionExc
        (ExtractionError.glomError "PathAccessError: info_vals, T[-2]")) :=
  claim2_theorem limit_1e4 info_last info_secondlast true Option.none recEmpty
    (ExtractionError.glomError "PathAccessError: info_vals, T[-1]")
    (ExtractionError.glomError "PathAccessError: info_vals, T[-2]") rfl rfl

/-- C3: when the spec extraction succeeds with value `v`, the predicate
constructed by `value_below(limit, spec, name)` returns the message
`"\x7bname\x7d < \x7blimit\x7d"` (embedding the original textual form of the
limit verbatim) iff `v` is strictly below `float(limit)`, and returns `None`
otherwise — in particular when `v` equals the limit. -/
theorem claim3_theorem (limit : Limit) (spec : Spec) (nm : String)
    (r : ResultRecord) (q : ℚ)
    (h : spec.extract r = Except.ok (some q)) :
    (value_below limit spec (some nm) r =
        Except.ok (some (nm ++ " < " ++ limit.repr)) ↔ q < limit.val) ∧
    (¬ q < limit.val →
      value_below limit spec (some nm) r = Except.ok Option.none) := by
  constructor
  · by_cases hq : q < limit.val <;> simp [value_below, h, hq]
  · intro hq; simp [value_below, h, hq]

/-- C3 witness: with limit `'1e-4'`, a last info value of exactly `1e-4`
yields `None`, and a last info value of `9e-5` yields `J_T < 1e-4`. -/
theorem claim3_witness :
    value_below limit_1e4 info_last (some "J_T") recEq = Except.ok Option.none ∧
    value_below limit_1e4 info_last (some "J_T") recBelow =
      Except.ok (some "J_T < 1e-4") := by
  constructor
  · exact (claim3_theorem limit_1e4 info_last "J_T" recEq (1/10000) rfl).2
      (by norm_num [limit_1e4])
  · exact (claim3_theorem limit_1e4 info_last "J_T" recBelow (9/100000) rfl).1.mpr
      (by norm_num [limit_1e4])

/-- C4: when both extractions performed by the predicate constructed by
`delta_below` succeed with numeric values `v1` and `v0`, the predicate
computes `delta = v1 - v0`, replaces it by its absolute value when
`absolute_value` is true, and returns `"\x7bname\x7d < \x7blimit\x7d"` iff
`delta` is strictly below `float(limit)`, returning `None` otherwise. -/
theorem claim4_theorem (limit : Limit) (s1 s0 : Spec) (av : Bool)
    (nm : String) (r : ResultRecord) (q1 q0 : ℚ)
    (h1 : s1.extract r = Except.ok (some q1))
    (h0 : s0.extract r = Except.ok (some q0)) :
    (delta_below limit s1 s0 av (some nm) r =
        Except.ok (some (nm ++ " < " ++ limit.repr)) ↔
      (if av then |q1 - q0| else q1 - q0) < limit.val) ∧
    (¬ (if av then |q1 - q0| else q1 - q0) < limit.val →
      delta_below limit s1 s0 av (some nm) r = Except.ok Option.none) := by
  have hrun := delta_below_both_ok limit s1 s0 av nm r q1 q0 h1 h0
  constructor
  · by_cases hd : (if av then |q1 - q0| else q1 - q0) < limit.val <;>
      simp [hrun, hd]
  · intro hd; simp [hrun, hd]

/-- C4 witness: with limit `'1e-4'` and the default specs, info values
`[1e-5, 2e-5]` yield `ΔJ_T < 1e-4`, while `[9e-1, 1e-1]` yield `None`. -/
theorem claim4_witness :
    delta_below limit_1e4 info_last info_secondlast true (some "ΔJ_T") recSmall =
      Except.ok (some "ΔJ_T < 1e-4") ∧
    delta_below limit_1e4 info_last info_secondlast true (some "ΔJ_T") recTwo =
      Except.ok Option.none := by
  constructor
  · exact (claim4_theorem limit_1e4 info_last info_secondlast true "ΔJ_T"
      recSmall (2/100000) (1/100000) rfl rfl).1.mpr
      (by norm_num [limit_1e4, abs_lt])
  · exact (claim4_theorem limit_1e4 info_last info_secondlast true "ΔJ_T"
      recTwo (1/10) (9/10) rfl rfl).2
      (by norm_num [limit_1e4, abs_lt])

/-- C5 (amended): `check_monotonic_error` is `delta_below` pre-bound with
limit `0`, `absolute_value=False`, `spec1` the second-to-last and `spec0` the
last info value; on every record whose last two info values are numeric, it
returns a message containing "error decrease" iff the last info value is
strictly greater than the second-to-last; on a record with exactly one
numeric info value it returns `None`; on a record with zero info values it
re-raises the extraction failure. -/
theorem claim5_theorem :
    (∀ r : ResultRecord, check_monotonic_error r =
      delta_below limit_zero info_secondlast info_last false
        (some "Loss of monotonic convergence; error decrease") r) ∧
    (∀ (r : ResultRecord) (a b : ℚ),
      pyIndex r.info_vals (-2) = some (some a) →
      pyIndex r.info_vals (-1) = some (some b) →
      (check_monotonic_error r =
          Except.ok (some "Loss of monotonic convergence; error decrease < 0") ↔
        a < b) ∧
      (¬ a < b → check_monotonic_error r = Except.ok Option.none)) ∧
    (∀ (r : ResultRecord) (q : ℚ), r.info_vals = [some q] →
      check_monotonic_error r = Except.ok Option.none) ∧
    (∀ r : ResultRecord, r.info_vals = [] →
      check_monotonic_error r = Except.error (PyExc.extractionExc
        (ExtractionError.glomError "PathAccessError: info_vals, T[-1]"))) := by
  refine ⟨fun r => rfl, ?_, ?_, ?_⟩
  · intro r a b h2 h1
    have e1 : info_secondlast.extract r = Except.ok (some a) := by
      simp [info_secondlast, h2]
    have e0 : info_last.extract r = Except.ok (some b) := by
      simp [info_last, h1]
    have hrun := delta_below_both_ok limit_zero info_secondlast info_last false
      "Loss of monotonic convergence; error decrease" r a b e1 e0
    have hmsg : ("Loss of monotonic convergence; error decrease" ++ " < " ++
        limit_zero.repr : String) =
        "Loss of monotonic convergence; error decrease < 0" := rfl
    have hzero : limit_zero.val = 0 := rfl
    rw [hmsg, hzero] at hrun
    have hcme : check_monotonic_error r =
        delta_below limit_zero info_secondlast info_last false
          (some "Loss of monotonic convergence; error decrease") r := rfl
    rw [hcme, hrun]
    constructor
    · by_cases hab : a < b
      · have : a - b < 0 := sub_neg.mpr hab
        simp [this, hab]
      · have : ¬ a - b < 0 := by simpa [sub_neg] using hab
        simp [this, hab]
    · intro hab
      have : ¬ a - b < 0 := by simpa [sub_neg] using hab
      simp [this]
  · intro r q hr
    have e1 : info_secondlast.extract r =
        Except.error (ExtractionError.glomError "PathAccessError: info_vals, T[-2]") := by
      simp [info_secondlast, pyIndex, hr]
    have e0 : info_last.extract r = Except.ok (some q) := by
      simp [info_last, pyIndex, hr]
    exact delta_below_err_ok limit_zero info_secondlast info_last false
      (some "Loss of monotonic convergence; error decrease") r _ q e1 e0
  · intro r hr
    have e1 : info_secondlast.extract r =
        Except.error (ExtractionError.glomError "PathAccessError: info_vals, T[-2]") := by
      simp [info_secondlast, pyIndex, hr]
    have e0 : info_last.extract r =
        Except.error (ExtractionError.glomError "PathAccessError: info_vals, T[-1]") := by
      simp [info_last, pyIndex, hr]
    exact delta_below_err_err limit_zero info_secondlast info_last false
      (some "Loss of monotonic convergence; error decrease") r _ _ e1 e0

/-- C5 counterexample: a record with zero info values has fewer than two info
values, yet `check_monotonic_error` re-raises the extraction failure instead
of returning `None`. -/
theorem claim5_counterexample :
    recEmpty.info_vals.length < 2 ∧
    check_monotonic_error recEmpty = Except.error (PyExc.extractionExc
      (ExtractionError.glomError "PathAccessError: info_vals, T[-1]")) :=
  ⟨by decide, rfl⟩

/-- C5 witness: on the info-value sequence `[9e-1, 1e-1, 2e-1]`, the three
successive calls return `None`, `None`, and the error-decrease message. -/
theorem claim5_witness :
    check_monotonic_error recOne = Except.ok Option.none ∧
    check_monotonic_error recTwo = Except.ok Option.none ∧
    check_monotonic_error recThree =
      Except.ok (some "Loss of monotonic convergence; error decrease < 0") := by
  refine ⟨?_, ?_, ?_⟩
  · exact claim5_theorem.2.2.1 recOne (9/10) rfl
  · exact (claim5_theorem.2.1 recTwo (9/10) (1/10) rfl rfl).2 (by norm_num)
  · exact (claim5_theorem.2.1 recThree (1/10) (2/10) rfl rfl).1.mpr (by norm_num)

/-- C6: the predicate constructed by `Or` returns `None` for the empty list,
returns `None` when every input predicate returns a falsy result, and
returns the result of the first input predicate (in the given order) whose
result is truthy, independently of the predicates after it (which are never
evaluated). -/
theorem claim6_theorem (r : ResultRecord) :
    Or [] r = Except.ok Option.none ∧
    (∀ fs, (∀ g ∈ fs, ∃ m, g r = Except.ok m ∧ truthy m = false) →
      Or fs r = Except.ok Option.none) ∧
    (∀ fs1 (f : ResultRecord → Except PyExc (Option String)) fs2 msg,
      (∀ g ∈ fs1, ∃ m, g r = Except.ok m ∧ truthy m = false) →
      f r = Except.ok msg → truthy msg = true →
      Or (fs1 ++ f :: fs2) r = Except.ok msg) :=
  ⟨rfl,
   fun fs h => Or_loop_all_falsy r fs h,
   fun fs1 f fs2 msg h hf ht => Or_loop_append r fs1 f fs2 msg h hf ht⟩

/-- C6 witness: `Or` of a passing check, a signalling check and a later check
returns the signalling check's message; empty `Or` returns `None`. -/
theorem claim6_witness :
    Or [p_none, p_stop, p_later] recEmpty = Except.ok (some "converged") ∧
    Or [] recEmpty = Except.ok Option.none := by
  constructor
  · exact (claim6_theorem recEmpty).2.2 [p_none] p_stop [p_later]
      (some "converged")
      (by intro g hg
          rw [List.mem_singleton] at hg
          subst hg
          exact ⟨Option.none, rfl, rfl⟩)
      rfl rfl
  · exact (claim6_theorem recEmpty).1

/-- C7: `dump_result` fails at construction time with
`ValueError "every must be > 0"` for every non-positive `every`, and
succeeds (returning the dump closure) for every positive `every`. -/
theorem claim7_theorem (t : List TemplatePart) (every : Int) :
    (every ≤ 0 → dump_result t every = Except.error "every must be > 0") ∧
    (0 < every → dump_result t every = Except.ok (dump_check t every)) := by
  constructor
  · intro h; simp [dump_result, h]
  · intro h; simp [dump_result, not_le.mpr h]

/-- C7 witness: `dump_result` with `every = 0` fails at construction, and
with `every = 10` succeeds. -/
theorem claim7_witness :
    dump_result tpl_r6 0 = Except.error "every must be > 0" ∧
    dump_result tpl_r6 10 = Except.ok (dump_check tpl_r6 10) :=
  ⟨(claim7_theorem tpl_r6 0).1 (by norm_num),
   (claim7_theorem tpl_r6 10).2 (by norm_num)⟩

/-- C8: the predicate constructed by `dump_result` returns `None` without
invoking the dump capability when the current iteration is not divisible by
`every`; when it is divisible it invokes the capability exactly once,
returns `None` on success, and on an I/O failure returns a message naming
the target path instead of propagating the exception. -/
theorem claim8_theorem (t : List TemplatePart) (every : Int)
    (p : ResultRecord → Except PyExc (Option String) × List String)
    (r : ResultRecord) (i : Int)
    (hp : dump_result t every = Except.ok p)
    (hi : pyIndex r.iters (-1) = some i) :
    (¬ i % every = 0 → p r = (Except.ok Option.none, [])) ∧
    (i % every = 0 →
      (r.dump (formatTemplate t i) = Except.ok () →
        p r = (Except.ok Option.none, [formatTemplate t i])) ∧
      (∀ msg, r.dump (formatTemplate t i) = Except.error msg →
        p r = (Except.ok (some ("Could not store " ++ formatTemplate t i ++
                 ": " ++ msg)),
               [formatTemplate t i]))) := by
  have hp2 : p = dump_check t every := by
    by_cases he : every ≤ 0
    · simp [dump_result, he] at hp
    · simp [dump_result, he] at hp
      exact hp.symm
  subst hp2
  refine ⟨?_, ?_⟩
  · intro hmod
    simp [dump_check, hi, hmod]
  · intro hmod
    refine ⟨?_, ?_⟩
    · intro hd
      simp [dump_check, hi, hmod, hd]
    · intro msg hd
      simp [dump_check, hi, hmod, hd]

/-- C8 witness: with `every = 10`, iteration 3 triggers no dump and returns
`None`; iteration 10 dumps exactly once and returns `None` on success; on a
failing dump the predicate returns a message naming the path, raising
nothing. -/
theorem claim8_witness :
    dump_check tpl_r6 10 recIter3 = (Except.ok Option.none, []) ∧
    dump_check tpl_r6 10 recIter10 =
      (Except.ok Option.none, [formatTemplate tpl_r6 10]) ∧
    dump_check tpl_r6 10 recIter10bad =
      (Except.ok (some ("Could not store " ++ formatTemplate tpl_r6 10 ++
         ": " ++ "disk full")),
       [formatTemplate tpl_r6 10]) := by
  refine ⟨?_, ?_, ?_⟩
  · exact (claim8_theorem tpl_r6 10 (dump_check tpl_r6 10) recIter3 3
      rfl rfl).1 (by norm_num)
  · exact ((claim8_theorem tpl_r6 10 (dump_check tpl_r6 10) recIter10 10
      rfl rfl).2 (by norm_num)).1 rfl
  · exact ((claim8_theorem tpl_r6 10 (dump_check tpl_r6 10) recIter10bad 10
      rfl rfl).2 (by norm_num)).2 "disk full" rfl

/-- C9: on every call where a dump is due, the constructed predicate targets
the path obtained by formatting the template's iteration field with the
current iteration number; in particular the template `r_\x7biter:06d\x7d.dump`
at iteration 200 targets `r_000200.dump`. -/
theorem claim9_theorem :
    (∀ (t : List TemplatePart) (every : Int) (r : ResultRecord) (i : Int),
      pyIndex r.iters (-1) = some i → i % every = 0 →
      (dump_check t every r).snd = [formatTemplate t i]) ∧
    formatTemplate tpl_r6 200 = "r_000200.dump" := by
  constructor
  · intro t every r i hi hmod
    cases hd : r.dump (formatTemplate t i) <;>
      simp [dump_check, hi, hmod, hd]
  · rfl

/-- C9 witness: `dump_result` with template `r_\x7biter:06d\x7d.dump` and
`every = 100`, called at iteration 200, passes exactly the path
`r_000200.dump` to the dump capability. -/
theorem claim9_witness :
    (dump_check tpl_r6 100 recIter200).snd = ["r_000200.dump"] := by
  have h := claim9_theorem
  have h1 := h.1 tpl_r6 100 recIter200 200 rfl (by norm_num)
  rw [h.2] at h1
  exact h1

/-- C10: when exactly one of the two extractions performed by the predicate
constructed by `delta_below` succeeds with the value Python `None` while the
other succeeds with a numeric value, the predicate returns `None` without
attempting the comparison. -/
theorem claim10_theorem (limit : Limit) (s1 s0 : Spec) (av : Bool)
    (nm : Option String) (r : ResultRecord) (q : ℚ) :
    (s1.extract r = Except.ok Option.none →
      s0.extract r = Except.ok (some q) →
      delta_below limit s1 s0 av nm r = Except.ok Option.none) ∧
    (s1.extract r = Except.ok (some q) →
      s0.extract r = Except.ok Option.none →
      delta_below limit s1 s0 av nm r = Except.ok Option.none) :=
  ⟨fun h1 h0 => delta_below_oknone_ok limit s1 s0 av nm r q h1 h0,
   fun h1 h0 => delta_below_ok_oknone limit s1 s0 av nm r q h1 h0⟩

/-- C10 witness: on a record whose info values are `[1, None]`, the default
`delta_below` predicate returns `None`. -/
theorem claim10_witness :
    delta_below limit_1e4 info_last info_secondlast true Option.none recNoneLast =
      Except.ok Option.none :=
  (claim10_theorem limit_1e4 info_last info_secondlast true Option.none
    recNoneLast 1).1 rfl rfl

end Krotov
